import Mathlib

/-!
Verification development for the VFMC core (Rust sources under src/rust-src/src).

The per-stage classifiers (`eo.rs`, `dr.rs`, `htr.rs`, `fr.rs`, `slice.rs`,
`finish.rs`), the move-append cancellation (`lib.rs`) and the HTR case-identity
deduplication (`htr.rs`, `solver.rs`) are embedded shallowly.  The cube state,
the move cycle tables and the coordinate functions live in the external
`cubelib` crate, which is not part of this repository; those are modelled
from the specification (doc comments starting with `Modelled from the spec:`)
using the piece layout fixed by the repository's own facelet tables.
-/

namespace VFMC

/-- Visibility flags, `lib.rs` (`Any=1, BadFace=2, BadPiece=4, HtrD=8, TopColor=16`). -/
inductive Visibility where
| Any
| BadFace
| BadPiece
| HtrD
| TopColor
deriving DecidableEq

/-- Numeric value of a visibility flag, as in the Rust enum discriminants. -/
def Visibility.val : Visibility → Nat
| .Any => 1
| .BadFace => 2
| .BadPiece => 4
| .HtrD => 8
| .TopColor => 16

/-- The six faces of `Turn333`. -/
inductive Face where
| U
| D
| F
| B
| R
| L
deriving DecidableEq

/-- The opposite face (`face.opposite()` in cubelib, used by `append_move`). -/
def Face.opposite : Face → Face
| .U => .D
| .D => .U
| .F => .B
| .B => .F
| .R => .L
| .L => .R

/-- Turn direction: clockwise, half, counter-clockwise. -/
inductive Direction where
| CW
| Half
| CCW
deriving DecidableEq

/-- Direction of the inverse turn. -/
def Direction.invert : Direction → Direction
| .CW => .CCW
| .Half => .Half
| .CCW => .CW

/-- A move `(face, direction)`, mirroring `Turn333`. -/
structure Turn where
face : Face
dir : Direction
deriving DecidableEq

/-- The inverse move (`turn.invert()`). -/
def Turn.invert (t : Turn) : Turn := ⟨t.face, t.dir.invert⟩

/-- The backwards scan of `append_move` (`lib.rs` lines 107-137) over the
reversed move list: returns `some` of the (reversed) cancelled list when a
cancellation fires, `none` when the scan stops without cancelling. -/
def cancelScan : List Turn → Turn → Option (List Turn)
| [], _ => none
| m :: rest, t =>
  if m = t.invert then some rest
  else if m.face = t.face then
    some ((match m.dir, t.dir with
      | .Half, _ => t.invert
      | _, .Half => m.invert
      | _, _ => (⟨t.face, .Half⟩ : Turn)) :: rest)
  else if m.face ≠ t.face.opposite then none
  else (cancelScan rest t).map (m :: ·)

/-- `append_move` restricted to one move list (`lib.rs` lines 100-152):
scan from the end, cancel if possible, otherwise push the move. -/
def appendList (l : List Turn) (t : Turn) : List Turn :=
  match cancelScan l.reverse t with
  | some r => r.reverse
  | none => l ++ [t]

/-- An algorithm: normal and inverse move sequences (`LibAlgorithm`). -/
structure Alg where
normal : List Turn
inverse : List Turn
deriving DecidableEq

/-- `append_move` on an algorithm (`lib.rs`): append to the side selected by
the `inverse` flag, leaving the other side unchanged. -/
def append_move (a : Alg) (t : Turn) (inv : Bool) : Alg :=
  match inv with
  | true => { normal := a.normal, inverse := appendList a.inverse t }
  | false => { normal := appendList a.normal t, inverse := a.inverse }

/-- Modelled from the spec: an edge cubie as observed through
`Cube::edges` — an identity `0..11` and one orientation flag per axis
(`oriented_ud`, `oriented_fb`, `oriented_rl` in cubelib). -/
structure Edge where
id : Fin 12
ud : Bool
fb : Bool
rl : Bool
deriving DecidableEq, Fintype

/-- Modelled from the spec: a corner cubie — identity `0..7` and twist `0..2`
(`orientation` in cubelib; `0` means the UD-colour sticker faces UD). -/
structure Corner where
id : Fin 8
o : Fin 3
deriving DecidableEq, Fintype

/-- Modelled from the spec: the cube state — 12 edges and 8 corners indexed by
position.  Edge positions: 0=UB 1=UR 2=UF 3=UL, 4=FR 5=FL 6=BR 7=BL,
8=DF 9=DR 10=DB 11=DL; corners: 0=UBL 1=UBR 2=UFR 3=UFL, 4=DFL 5=DFR 6=DBR
7=DBL.  This layout is the one fixed by the repository's facelet and
opposite-slice tables in `lib.rs`. -/
structure Cube where
edges : Fin 12 → Edge
corners : Fin 8 → Corner

/-- The solved cube: every piece home and oriented. -/
def solvedCube : Cube :=
  { edges := fun p => ⟨p, true, true, true⟩
    corners := fun p => ⟨p, 0⟩ }

/-- Flip the UD orientation flag of an edge. -/
def flipUD (e : Edge) : Edge := { e with ud := !e.ud }

/-- Flip the FB orientation flag of an edge. -/
def flipFB (e : Edge) : Edge := { e with fb := !e.fb }

/-- Flip the RL orientation flag of an edge. -/
def flipRL (e : Edge) : Edge := { e with rl := !e.rl }

/-- Twist a corner by `d` (mod 3). -/
def twist (k : Corner) (d : Nat) : Corner :=
  ⟨k.id, ⟨(k.o.val + d) % 3, by omega⟩⟩

/-- Modelled from the spec: the standard cycle table for a clockwise U turn —
cycles the U-layer edges and corners and flips the UD orientation flag of the
moved edges (UD-axis quarter turns are the ones that break UD edge
orientation). -/
def moveU (c : Cube) : Cube :=
  { edges := fun p =>
      match p.val with
      | 0 => flipUD (c.edges 3)
      | 1 => flipUD (c.edges 0)
      | 2 => flipUD (c.edges 1)
      | 3 => flipUD (c.edges 2)
      | _ => c.edges p
    corners := fun p =>
      match p.val with
      | 0 => c.corners 3
      | 1 => c.corners 0
      | 2 => c.corners 1
      | 3 => c.corners 2
      | _ => c.corners p }

/-- Modelled from the spec: clockwise D turn. -/
def moveD (c : Cube) : Cube :=
  { edges := fun p =>
      match p.val with
      | 9 => flipUD (c.edges 8)
      | 10 => flipUD (c.edges 9)
      | 11 => flipUD (c.edges 10)
      | 8 => flipUD (c.edges 11)
      | _ => c.edges p
    corners := fun p =>
      match p.val with
      | 5 => c.corners 4
      | 6 => c.corners 5
      | 7 => c.corners 6
      | 4 => c.corners 7
      | _ => c.corners p }

/-- Modelled from the spec: clockwise R turn — cycles UR→BR→DR→FR, flips the
RL flag of the moved edges, twists the moved corners. -/
def moveR (c : Cube) : Cube :=
  { edges := fun p =>
      match p.val with
      | 6 => flipRL (c.edges 1)
      | 9 => flipRL (c.edges 6)
      | 4 => flipRL (c.edges 9)
      | 1 => flipRL (c.edges 4)
      | _ => c.edges p
    corners := fun p =>
      match p.val with
      | 1 => twist (c.corners 2) 1
      | 6 => twist (c.corners 1) 2
      | 5 => twist (c.corners 6) 1
      | 2 => twist (c.corners 5) 2
      | _ => c.corners p }

/-- Modelled from the spec: clockwise L turn. -/
def moveL (c : Cube) : Cube :=
  { edges := fun p =>
      match p.val with
      | 5 => flipRL (c.edges 3)
      | 11 => flipRL (c.edges 5)
      | 7 => flipRL (c.edges 11)
      | 3 => flipRL (c.edges 7)
      | _ => c.edges p
    corners := fun p =>
      match p.val with
      | 4 => twist (c.corners 3) 2
      | 7 => twist (c.corners 4) 1
      | 0 => twist (c.corners 7) 2
      | 3 => twist (c.corners 0) 1
      | _ => c.corners p }

/-- Modelled from the spec: clockwise F turn. -/
def moveF (c : Cube) : Cube :=
  { edges := fun p =>
      match p.val with
      | 4 => flipFB (c.edges 2)
      | 8 => flipFB (c.edges 4)
      | 5 => flipFB (c.edges 8)
      | 2 => flipFB (c.edges 5)
      | _ => c.edges p
    corners := fun p =>
      match p.val with
      | 2 => twist (c.corners 3) 1
      | 5 => twist (c.corners 2) 2
      | 4 => twist (c.corners 5) 1
      | 3 => twist (c.corners 4) 2
      | _ => c.corners p }

/-- Modelled from the spec: clockwise B turn. -/
def moveB (c : Cube) : Cube :=
  { edges := fun p =>
      match p.val with
      | 7 => flipFB (c.edges 0)
      | 10 => flipFB (c.edges 7)
      | 6 => flipFB (c.edges 10)
      | 0 => flipFB (c.edges 6)
      | _ => c.edges p
    corners := fun p =>
      match p.val with
      | 0 => twist (c.corners 1) 1
      | 7 => twist (c.corners 0) 2
      | 6 => twist (c.corners 7) 1
      | 1 => twist (c.corners 6) 2
      | _ => c.corners p }

/-- The clockwise quarter turn of a face. -/
def quarter : Face → Cube → Cube
| .U => moveU
| .D => moveD
| .F => moveF
| .B => moveB
| .R => moveR
| .L => moveL

/-- Apply one turn to the cube. -/
def applyTurn (c : Cube) (t : Turn) : Cube :=
  match t.dir with
  | .CW => quarter t.face c
  | .Half => quarter t.face (quarter t.face c)
  | .CCW => quarter t.face (quarter t.face (quarter t.face c))

/-- Apply a list of turns, left to right. -/
def applyTurns (c : Cube) : List Turn → Cube
| [] => c
| t :: ts => applyTurns (applyTurn c t) ts

/-- Whole-cube reorientations used by the classifiers (`Transformation333`). -/
inductive Transformation where
| X
| Y
| Z
deriving DecidableEq

/-- Edge position sourcing table for the X rotation (F→U, U→B, B→D, D→F):
`(X·c)` takes its edge at position `p` from position `xPreE p` of `c`. -/
def xPreE (p : Fin 12) : Fin 12 :=
  match p.val with
  | 0 => 2
  | 1 => 4
  | 2 => 8
  | 3 => 5
  | 4 => 9
  | 5 => 11
  | 6 => 1
  | 7 => 3
  | 8 => 10
  | 9 => 6
  | 10 => 0
  | _ => 7

/-- Forward edge relabelling for X: the home of piece `q` moves to `xFwdE q`. -/
def xFwdE (q : Fin 12) : Fin 12 :=
  match q.val with
  | 0 => 10
  | 1 => 6
  | 2 => 0
  | 3 => 7
  | 4 => 1
  | 5 => 3
  | 6 => 9
  | 7 => 11
  | 8 => 2
  | 9 => 4
  | 10 => 8
  | _ => 5

/-- Corner sourcing table for X. -/
def xPreC (p : Fin 8) : Fin 8 :=
  match p.val with
  | 0 => 3
  | 1 => 2
  | 2 => 5
  | 3 => 4
  | 4 => 7
  | 5 => 6
  | 6 => 1
  | _ => 0

/-- Forward corner relabelling for X. -/
def xFwdC (q : Fin 8) : Fin 8 :=
  match q.val with
  | 0 => 7
  | 1 => 6
  | 2 => 1
  | 3 => 0
  | 4 => 3
  | 5 => 2
  | 6 => 5
  | _ => 4

/-- Edge relabelling under X: identity moves along the rotation and the UD/FB
orientation flags swap (X carries the FB axis onto UD). -/
def relabelEdgeX (e : Edge) : Edge :=
  ⟨xFwdE e.id, e.fb, e.ud, e.rl⟩

/-- Corner relabelling under X for a corner taken from (old) position `p`:
the new twist is the old FB-showing facelet transported through the rotation's
facelet permutation at `p`. -/
def relabelCornerX (p : Fin 8) (k : Corner) : Corner :=
  ⟨xFwdC k.id,
   ⟨((k.o.val + 2 - k.id.val % 2) % 3 + (if p.val % 2 = 0 then 1 else 2)) % 3,
    by omega⟩⟩

/-- `cube.transform(Transformation333::X)`, modelled from the spec: whole-cube
rotation relabelling pieces and orientations by a fixed table. -/
def transformX (c : Cube) : Cube :=
  { edges := fun p => relabelEdgeX (c.edges (xPreE p))
    corners := fun p => relabelCornerX (xPreC p) (c.corners (xPreC p)) }

/-- Edge sourcing table for the Y rotation (about UD: F→L, L→B, B→R, R→F). -/
def yPreE (p : Fin 12) : Fin 12 :=
  match p.val with
  | 0 => 3
  | 1 => 0
  | 2 => 1
  | 3 => 2
  | 4 => 6
  | 5 => 4
  | 6 => 7
  | 7 => 5
  | 8 => 9
  | 9 => 10
  | 10 => 11
  | _ => 8

/-- Forward edge relabelling for Y. -/
def yFwdE (q : Fin 12) : Fin 12 :=
  match q.val with
  | 0 => 1
  | 1 => 2
  | 2 => 3
  | 3 => 0
  | 4 => 5
  | 5 => 7
  | 6 => 4
  | 7 => 6
  | 8 => 11
  | 9 => 8
  | 10 => 9
  | _ => 10

/-- Corner sourcing table for Y. -/
def yPreC (p : Fin 8) : Fin 8 :=
  match p.val with
  | 0 => 3
  | 1 => 0
  | 2 => 1
  | 3 => 2
  | 4 => 5
  | 5 => 6
  | 6 => 7
  | _ => 4

/-- Forward corner relabelling for Y. -/
def yFwdC (q : Fin 8) : Fin 8 :=
  match q.val with
  | 0 => 1
  | 1 => 2
  | 2 => 3
  | 3 => 0
  | 4 => 7
  | 5 => 4
  | 6 => 5
  | _ => 6

/-- Edge relabelling under Y: FB and RL orientation flags swap, UD is kept. -/
def relabelEdgeY (e : Edge) : Edge :=
  ⟨yFwdE e.id, e.ud, e.rl, e.fb⟩

/-- Corner relabelling under Y: the UD axis is fixed, so the twist is kept. -/
def relabelCornerY (k : Corner) : Corner :=
  ⟨yFwdC k.id, k.o⟩

/-- `cube.transform(Transformation333::Y)`, modelled from the spec. -/
def transformY (c : Cube) : Cube :=
  { edges := fun p => relabelEdgeY (c.edges (yPreE p))
    corners := fun p => relabelCornerY (c.corners (yPreC p)) }

/-- Edge sourcing table for the Z rotation (about FB: U→R, R→D, D→L, L→U). -/
def zPreE (p : Fin 12) : Fin 12 :=
  match p.val with
  | 0 => 7
  | 1 => 3
  | 2 => 5
  | 3 => 11
  | 4 => 2
  | 5 => 8
  | 6 => 0
  | 7 => 10
  | 8 => 4
  | 9 => 1
  | 10 => 6
  | _ => 9

/-- Forward edge relabelling for Z. -/
def zFwdE (q : Fin 12) : Fin 12 :=
  match q.val with
  | 0 => 6
  | 1 => 9
  | 2 => 4
  | 3 => 1
  | 4 => 8
  | 5 => 2
  | 6 => 10
  | 7 => 0
  | 8 => 5
  | 9 => 11
  | 10 => 7
  | _ => 3

/-- Corner sourcing table for Z. -/
def zPreC (p : Fin 8) : Fin 8 :=
  match p.val with
  | 0 => 7
  | 1 => 0
  | 2 => 3
  | 3 => 4
  | 4 => 5
  | 5 => 2
  | 6 => 1
  | _ => 6

/-- Forward corner relabelling for Z. -/
def zFwdC (q : Fin 8) : Fin 8 :=
  match q.val with
  | 0 => 1
  | 1 => 6
  | 2 => 5
  | 3 => 2
  | 4 => 3
  | 5 => 4
  | 6 => 7
  | _ => 0

/-- Edge relabelling under Z: UD and RL orientation flags swap, FB is kept. -/
def relabelEdgeZ (e : Edge) : Edge :=
  ⟨zFwdE e.id, e.rl, e.fb, e.ud⟩

/-- Corner relabelling under Z for a corner taken from (old) position `p`:
the new twist is the old RL-showing facelet transported through the rotation's
facelet permutation at `p`. -/
def relabelCornerZ (p : Fin 8) (k : Corner) : Corner :=
  ⟨zFwdC k.id,
   ⟨((k.o.val + 1 + k.id.val % 2) % 3 + (if p.val % 2 = 0 then 2 else 1)) % 3,
    by omega⟩⟩

/-- `cube.transform(Transformation333::Z)`, modelled from the spec. -/
def transformZ (c : Cube) : Cube :=
  { edges := fun p => relabelEdgeZ (c.edges (zPreE p))
    corners := fun p => relabelCornerZ (zPreC p) (c.corners (zPreC p)) }

/-- Dispatch a `Transformation333` value. -/
def applyTransform : Transformation → Cube → Cube
| .X => transformX
| .Y => transformY
| .Z => transformZ

/-- `EDGE_UD_FACELETS` from `lib.rs`: which sticker shows the UD colour. -/
def EDGE_UD_FACELETS (p : Fin 12) : Option Nat :=
  match p.val with
  | 0 => some 0
  | 1 => some 0
  | 2 => some 0
  | 3 => some 0
  | 4 => none
  | 5 => none
  | 6 => none
  | 7 => none
  | _ => some 0

/-- `EDGE_FB_FACELETS` from `lib.rs`. -/
def EDGE_FB_FACELETS (p : Fin 12) : Option Nat :=
  match p.val with
  | 0 => some 1
  | 1 => none
  | 2 => some 1
  | 3 => none
  | 4 => some 0
  | 5 => some 0
  | 6 => some 0
  | 7 => some 0
  | 8 => some 1
  | 9 => none
  | 10 => some 1
  | _ => none

/-- `EDGE_RL_FACELETS` from `lib.rs`. -/
def EDGE_RL_FACELETS (p : Fin 12) : Option Nat :=
  match p.val with
  | 0 => none
  | 1 => some 1
  | 2 => none
  | 3 => some 1
  | 4 => some 1
  | 5 => some 1
  | 6 => some 1
  | 7 => some 1
  | 8 => none
  | 9 => some 1
  | 10 => none
  | _ => some 1

/-- `CORNER_UD_FACELETS` from `lib.rs` (all zero). -/
def CORNER_UD_FACELETS (_p : Fin 8) : Nat := 0

/-- `CORNER_FB_FACELETS` from `lib.rs`. -/
def CORNER_FB_FACELETS (p : Fin 8) : Nat :=
  if p.val % 2 = 0 then 2 else 1

/-- `CORNER_RL_FACELETS` from `lib.rs`. -/
def CORNER_RL_FACELETS (p : Fin 8) : Nat :=
  if p.val % 2 = 0 then 1 else 2

/-- `EDGE_OPPOSITE_E_SLICE` from `lib.rs`. -/
def EDGE_OPPOSITE_E_SLICE (p : Fin 12) : Fin 12 :=
  match p.val with
  | 0 => 10
  | 1 => 9
  | 2 => 8
  | 3 => 11
  | 4 => 4
  | 5 => 5
  | 6 => 6
  | 7 => 7
  | 8 => 2
  | 9 => 1
  | 10 => 0
  | _ => 3

/-- `EDGE_OPPOSITE_S_SLICE` from `lib.rs`. -/
def EDGE_OPPOSITE_S_SLICE (p : Fin 12) : Fin 12 :=
  match p.val with
  | 0 => 2
  | 1 => 1
  | 2 => 0
  | 3 => 3
  | 4 => 6
  | 5 => 7
  | 6 => 4
  | 7 => 5
  | 8 => 10
  | 9 => 9
  | 10 => 8
  | _ => 11

/-- `EDGE_OPPOSITE_M_SLICE` from `lib.rs`. -/
def EDGE_OPPOSITE_M_SLICE (p : Fin 12) : Fin 12 :=
  match p.val with
  | 0 => 0
  | 1 => 3
  | 2 => 2
  | 3 => 1
  | 4 => 5
  | 5 => 4
  | 6 => 7
  | 7 => 6
  | 8 => 8
  | 9 => 11
  | 10 => 10
  | _ => 9

/-- `CORNER_OPPOSITE_E_SLICE` from `lib.rs`. -/
def CORNER_OPPOSITE_E_SLICE (p : Fin 8) : Fin 8 :=
  match p.val with
  | 0 => 7
  | 1 => 6
  | 2 => 5
  | 3 => 4
  | 4 => 3
  | 5 => 2
  | 6 => 1
  | _ => 0

/-- `CORNER_OPPOSITE_S_SLICE` from `lib.rs`. -/
def CORNER_OPPOSITE_S_SLICE (p : Fin 8) : Fin 8 :=
  match p.val with
  | 0 => 3
  | 1 => 2
  | 2 => 1
  | 3 => 0
  | 4 => 7
  | 5 => 6
  | 6 => 5
  | _ => 4

/-- `CORNER_OPPOSITE_M_SLICE` from `lib.rs`. -/
def CORNER_OPPOSITE_M_SLICE (p : Fin 8) : Fin 8 :=
  match p.val with
  | 0 => 1
  | 1 => 0
  | 2 => 3
  | 3 => 2
  | 4 => 5
  | 5 => 4
  | 6 => 7
  | _ => 6

/-- `DrawableCorner::oriented_ud` (`lib.rs`). -/
def Corner.oriented_ud (k : Corner) (_pos : Fin 8) : Bool := k.o.val == 0

/-- `DrawableCorner::oriented_fb` (`lib.rs`). -/
def Corner.oriented_fb (k : Corner) (pos : Fin 8) : Bool :=
  if (k.id.val + pos.val) % 2 = 0 then k.o.val == 0
  else k.o.val == 2 - k.id.val % 2

/-- `DrawableCorner::oriented_rl` (`lib.rs`). -/
def Corner.oriented_rl (k : Corner) (pos : Fin 8) : Bool :=
  if (k.id.val + pos.val) % 2 = 0 then k.o.val == 0
  else k.o.val == 1 + k.id.val % 2

/-- `DrawableCorner::facelet_showing_ud` (`lib.rs`). -/
def Corner.facelet_showing_ud (k : Corner) : Nat := k.o.val

/-- `DrawableCorner::facelet_showing_fb` (`lib.rs`). -/
def Corner.facelet_showing_fb (k : Corner) : Nat :=
  (k.o.val + 2 - k.id.val % 2) % 3

/-- `DrawableCorner::facelet_showing_rl` (`lib.rs`). -/
def Corner.facelet_showing_rl (k : Corner) : Nat :=
  (k.o.val + 1 + k.id.val % 2) % 3

/-- Modelled from the spec: `count_bad_edges_ud` of cubelib's `BadEdgeCount` —
the number of edges mis-oriented along the UD axis. -/
def countBadUD (c : Cube) : Nat :=
  ((List.finRange 12).filter (fun p => !(c.edges p).ud)).length

/-- Modelled from the spec: `count_bad_edges_fb`. -/
def countBadFB (c : Cube) : Nat :=
  ((List.finRange 12).filter (fun p => !(c.edges p).fb)).length

/-- Modelled from the spec: `count_bad_edges_lr`. -/
def countBadLR (c : Cube) : Nat :=
  ((List.finRange 12).filter (fun p => !(c.edges p).rl)).length

/-- The count of twisted corners, as in `DRUD::case_name` (`dr.rs`). -/
def badCornerCount (c : Cube) : Nat :=
  ((List.finRange 8).filter (fun p => !((c.corners p).o.val == 0))).length

/-- Is this identity (or position) one of the four E-slice edges `4..7`? -/
def inE (i : Fin 12) : Bool := decide (4 ≤ i.val ∧ i.val ≤ 7)

/-- Is this identity one of the four M-plane edges `{0, 2, 8, 10}`? -/
def inM (i : Fin 12) : Bool := !inE i && i.val % 2 == 0

/-- Is this identity one of the four S-plane edges `{1, 3, 9, 11}`? -/
def inS (i : Fin 12) : Bool := !inE i && i.val % 2 == 1

/-- All twelve edge positions satisfy a per-position predicate. -/
def edgesAll (f : Fin 12 → Edge → Bool) (c : Cube) : Bool :=
  (List.finRange 12).all fun p => f p (c.edges p)

/-- All eight corner positions satisfy a per-position predicate. -/
def cornersAll (f : Fin 8 → Corner → Bool) (c : Cube) : Bool :=
  (List.finRange 8).all fun p => f p (c.corners p)

/-- Per-position edge invariant of the half-turn reduction subgroup: oriented
on every axis and within its slice-plane class. -/
def htrEdgeOK (p : Fin 12) (e : Edge) : Bool :=
  e.ud && e.fb && e.rl &&
  (inE e.id == inE p && inM e.id == inM p)

/-- Per-position corner invariant of the half-turn reduction subgroup: fully
oriented and in a position of its own parity class. -/
def htrCornerOK (p : Fin 8) (k : Corner) : Bool :=
  k.o.val == 0 && (k.id.val + p.val) % 2 == 0

/-- Modelled from the spec: membership in the half-turn reduction subgroup
(HTR, the subgroup solvable with only half-turns), characterised by its
piece-level invariants: all orientations solved and every piece inside its
half-turn orbit. -/
def inHTRState (c : Cube) : Bool :=
  edgesAll htrEdgeOK c && cornersAll htrCornerOK c

/-- Per-position edge condition of DR on the UD axis. -/
def drudEdgeOK (p : Fin 12) (e : Edge) : Bool :=
  e.fb && e.rl && (!inE p || inE e.id)

/-- Per-position corner condition of DR on the UD axis. -/
def drudCornerOK (_p : Fin 8) (k : Corner) : Bool := k.o.val == 0

/-- Modelled from the spec: membership in the DR-UD subgroup — edges oriented
on FB and RL, corners oriented along UD, E-slice edges in the E slice. -/
def inDRUD (c : Cube) : Bool :=
  edgesAll drudEdgeOK c && cornersAll drudCornerOK c

/-- Per-position edge condition of DR on the FB axis. -/
def drfbEdgeOK (p : Fin 12) (e : Edge) : Bool :=
  e.ud && e.rl && (!inS p || inS e.id)

/-- Per-position corner condition of DR on the FB axis. -/
def drfbCornerOK (p : Fin 8) (k : Corner) : Bool := k.oriented_fb p

/-- Modelled from the spec: membership in the DR-FB subgroup. -/
def inDRFB (c : Cube) : Bool :=
  edgesAll drfbEdgeOK c && cornersAll drfbCornerOK c

/-- Per-position edge condition of DR on the RL axis. -/
def drrlEdgeOK (p : Fin 12) (e : Edge) : Bool :=
  e.ud && e.fb && (!inM p || inM e.id)

/-- Per-position corner condition of DR on the RL axis. -/
def drrlCornerOK (p : Fin 8) (k : Corner) : Bool := k.oriented_rl p

/-- Modelled from the spec: membership in the DR-RL subgroup. -/
def inDRRL (c : Cube) : Bool :=
  edgesAll drrlEdgeOK c && cornersAll drrlCornerOK c

/-- The DR-subset descriptor returned by cubelib's `get_dr_subset`. -/
structure DRSubset where
qt : Nat
label : String

/-- Modelled from the spec: cubelib's `Cube333::get_dr_subset` — the
descriptor exists exactly when some DR axis is reached, and it reports zero
quarter turns remaining exactly on the half-turn reduction subgroup.  The
subset label is modelled opaquely. -/
def get_dr_subset (c : Cube) : Option DRSubset :=
  if inDRUD c || inDRFB c || inDRRL c then
    some ⟨if inHTRState c then 0 else 1,
          if inHTRState c then "0c0" else "dr"⟩
  else none

/-- Modelled from the spec: `COUDCoord` — the rank of the UD corner twists,
zero exactly when all corners are oriented along UD. -/
def COUDCoordVal (c : Cube) : Nat :=
  (List.finRange 8).foldl (fun s p => s * 3 + (c.corners p).o.val) 0

/-- Modelled from the spec: the `UDSliceUnsortedCoord` component — zero
exactly when the four E-slice edges occupy the E slice. -/
def udSliceVal (c : Cube) : Nat :=
  ((List.finRange 12).filter (fun p => inE p && !inE (c.edges p).id)).length

/-- Modelled from the spec: cubelib's `DRUDEOFBCoord` — an integer coordinate
over the cube state that is zero exactly on the DR-UD target (corners oriented
along UD and E-slice edges in the E slice, the remainder of DR-UD after
EO-FB). -/
def DRUDEOFBCoordVal (c : Cube) : Nat :=
  COUDCoordVal c * 495 + udSliceVal c

/-- Per-position edge condition of the FR-UD (floppy, slice-free) target,
the negation of the bad-edge test in `fr.rs`: oriented, and either an E-slice
edge inside the E slice or a non-slice edge at its own or its E-opposite
position (placeable with a half-turn across the slice). -/
def frEdgeOK (p : Fin 12) (e : Edge) : Bool :=
  e.ud && e.fb && e.rl &&
  (if inE p then inE e.id
   else e.id == p || e.id == EDGE_OPPOSITE_E_SLICE p)

/-- The corner pairing invariant of the floppy subgroup, the generalisation
of the corner-goodness test in `fr.rs`: every vertical pair of corner
positions holds a vertical pair of corner pieces. -/
def frPairsOK (c : Cube) : Bool :=
  (List.finRange 8).all fun p =>
    (c.corners (CORNER_OPPOSITE_E_SLICE p)).id ==
      CORNER_OPPOSITE_E_SLICE (c.corners p).id

/-- Modelled from the spec: the target set of the FR-UD leave-slice stage —
the floppy subgroup generated by the four side half-turns F2, B2, R2, L2
(with the E-slice edges ignored), characterised by its piece-level
invariants: every non-E-slice edge at its own or E-opposite position,
E-slice edges inside the slice, all orientations solved, and corners in
their parity class with vertical partners preserved.  A single U2 or D2
leaves this set (`test_8e` in `fr.rs`: the coordinate is nonzero on the
U2 D2 cube), while a single side half-turn such as F2 stays inside it. -/
def inFRUDTarget (c : Cube) : Bool :=
  edgesAll frEdgeOK c && cornersAll htrCornerOK c && frPairsOK c

/-- A positive encoding of the edge arrangement, used for the nonzero values
of the modelled coordinates. -/
def edgeRank (c : Cube) : Nat :=
  (List.finRange 12).foldl (fun s p => s * 12 + (c.edges p).id.val) 1

/-- Modelled from the spec: cubelib's `FRUDNoSliceCoord` — an integer
coordinate that is zero exactly on the FR-UD leave-slice target subgroup; its
value elsewhere is an arbitrary positive index. -/
def FRUDNoSliceCoordVal (c : Cube) : Nat :=
  if inFRUDTarget c then 0 else edgeRank c

/-- Per-position edge condition of the leave-slice finish target. -/
def sliceFinEdgeOK (p : Fin 12) (e : Edge) : Bool :=
  e.ud && e.fb && e.rl && (if inE p then inE e.id else e.id == p)

/-- Per-position corner condition of the leave-slice finish target. -/
def sliceFinCornerOK (p : Fin 8) (k : Corner) : Bool :=
  k.id == p && k.o.val == 0

/-- Modelled from the spec: the target set of the Slice (finish leave-slice)
stage — everything solved except that the E-slice edges may sit anywhere
inside the E slice. -/
def inSliceFinTarget (c : Cube) : Bool :=
  edgesAll sliceFinEdgeOK c && cornersAll sliceFinCornerOK c

/-- Modelled from the spec: cubelib's `HTRLeaveSliceFinishCoord` — zero
exactly on the leave-slice finish target. -/
def HTRLeaveSliceFinishCoordVal (c : Cube) : Nat :=
  if inSliceFinTarget c then 0 else edgeRank c

/-- Is the cube the solved state? -/
def isSolvedState (c : Cube) : Bool :=
  edgesAll (fun p e => e.id == p && e.ud && e.fb && e.rl) c &&
  cornersAll (fun p k => k.id == p && k.o.val == 0) c

/-- Modelled from the spec: cubelib's `HTRFinishCoord` — zero exactly on the
solved cube. -/
def HTRFinishCoordVal (c : Cube) : Nat :=
  if isSolvedState c then 0 else edgeRank c

/-- Modelled from the spec: cubelib's `FRCPOrbitCoord` over the corners.  The
spec uses it only through the `case_name` table; it is modelled as an explicit
function of the two orbit corners (IDs 2 and 5). -/
def FRCPOrbitCoordVal (c : Cube) : Nat :=
  if (c.corners 2).id == 2 && (c.corners 5).id == 5 then 0
  else if (c.corners 2).id == 5 && (c.corners 5).id == 2 then 3
  else 1

/-- The number of inversions of the corner permutation. -/
def cornerInversions (c : Cube) : Nat :=
  (List.finRange 8).foldl
    (fun s i =>
      s + ((List.finRange 8).filter
        (fun j => i < j && (c.corners j).id < (c.corners i).id)).length) 0

/-- Modelled from the spec: cubelib's `FROrbitParityCoord` — the orbit parity,
modelled as the parity of the corner permutation. -/
def FROrbitParityCoordVal (c : Cube) : Nat := cornerInversions c % 2

namespace EOUD

/-- `EOUD::is_solved` (`eo.rs`). -/
def is_solved (c : Cube) : Bool := countBadUD c == 0

/-- `EOUD::is_eligible` (`eo.rs`). -/
def is_eligible (_c : Cube) : Bool := true

/-- `EOUD::case_name` (`eo.rs`). -/
def case_name (c : Cube) : String := toString (countBadUD c) ++ "e"

/-- `EOUD::edge_visibility` (`eo.rs`). -/
def edge_visibility (c : Cube) (pos : Fin 12) (_facelet : Nat) : Nat :=
  if !(c.edges pos).ud then Visibility.BadFace.val ||| Visibility.BadPiece.val
  else Visibility.Any.val

/-- `EOUD::corner_visibility` (`eo.rs`). -/
def corner_visibility (_c : Cube) (_pos : Fin 8) (_facelet : Nat) : Nat :=
  Visibility.Any.val

end EOUD

namespace EOFB

/-- `EOFB::is_solved` (`eo.rs`). -/
def is_solved (c : Cube) : Bool := countBadFB c == 0

/-- `EOFB::is_eligible` (`eo.rs`). -/
def is_eligible (_c : Cube) : Bool := true

/-- `EOFB::case_name` (`eo.rs`). -/
def case_name (c : Cube) : String := toString (countBadFB c) ++ "e"

/-- `EOFB::edge_visibility` (`eo.rs`). -/
def edge_visibility (c : Cube) (pos : Fin 12) (_facelet : Nat) : Nat :=
  if !(c.edges pos).fb then Visibility.BadFace.val ||| Visibility.BadPiece.val
  else Visibility.Any.val

/-- `EOFB::corner_visibility` (`eo.rs`). -/
def corner_visibility (_c : Cube) (_pos : Fin 8) (_facelet : Nat) : Nat :=
  Visibility.Any.val

end EOFB

namespace EORL

/-- `EORL::is_solved` (`eo.rs`). -/
def is_solved (c : Cube) : Bool := countBadLR c == 0

/-- `EORL::is_eligible` (`eo.rs`). -/
def is_eligible (_c : Cube) : Bool := true

/-- `EORL::case_name` (`eo.rs`). -/
def case_name (c : Cube) : String := toString (countBadLR c) ++ "e"

/-- `EORL::edge_visibility` (`eo.rs`). -/
def edge_visibility (c : Cube) (pos : Fin 12) (_facelet : Nat) : Nat :=
  if !(c.edges pos).rl then Visibility.BadFace.val ||| Visibility.BadPiece.val
  else Visibility.Any.val

/-- `EORL::corner_visibility` (`eo.rs`). -/
def corner_visibility (_c : Cube) (_pos : Fin 8) (_facelet : Nat) : Nat :=
  Visibility.Any.val

end EORL

namespace DRUD

/-- `DRUD::is_solved` (`dr.rs`). -/
def is_solved (c : Cube) : Bool :=
  countBadFB c == 0 && countBadLR c == 0 && DRUDEOFBCoordVal c == 0

/-- `DRUD::is_eligible` (`dr.rs`). -/
def is_eligible (c : Cube) : Bool :=
  EORL.is_solved c || EOFB.is_solved c

/-- `DRUD::case_name` (`dr.rs`). -/
def case_name (c : Cube) : String :=
  toString (badCornerCount c) ++ "c" ++
  toString (countBadLR c + countBadFB c) ++ "e"

/-- `DRUD::edge_visibility` (`dr.rs`). -/
def edge_visibility (c : Cube) (pos : Fin 12) (facelet : Nat) : Nat :=
  let e := c.edges pos
  if !e.fb || !e.rl then
    let v := Visibility.Any.val ||| Visibility.BadPiece.val
    if inE pos && e.fb && (some facelet == EDGE_FB_FACELETS pos) then
      v ||| Visibility.BadFace.val
    else if inE pos && e.rl && (some facelet == EDGE_RL_FACELETS pos) then
      v ||| Visibility.BadFace.val
    else if some facelet == EDGE_UD_FACELETS pos then
      v ||| Visibility.BadFace.val
    else v
  else Visibility.Any.val

/-- `DRUD::corner_visibility` (`dr.rs`). -/
def corner_visibility (c : Cube) (pos : Fin 8) (facelet : Nat) : Nat :=
  let k := c.corners pos
  if !k.oriented_ud pos then
    let v := Visibility.Any.val ||| Visibility.BadPiece.val
    if facelet == k.facelet_showing_ud then v ||| Visibility.BadFace.val
    else v
  else Visibility.Any.val

end DRUD

namespace DRFB

/-- `DRFB::is_solved` (`dr.rs`): transform by X, then `DRUD::is_solved`. -/
def is_solved (c : Cube) : Bool := DRUD.is_solved (transformX c)

/-- `DRFB::is_eligible` (`dr.rs`). -/
def is_eligible (c : Cube) : Bool :=
  EORL.is_solved c || EOUD.is_solved c

/-- `DRFB::case_name` (`dr.rs`). -/
def case_name (c : Cube) : String := DRUD.case_name (transformX c)

/-- `DRFB::edge_visibility` (`dr.rs`). -/
def edge_visibility (c : Cube) (pos : Fin 12) (facelet : Nat) : Nat :=
  let e := c.edges pos
  if !e.ud || !e.rl then
    let v := Visibility.Any.val ||| Visibility.BadPiece.val
    if inS pos && e.ud && (some facelet == EDGE_UD_FACELETS pos) then
      v ||| Visibility.BadFace.val
    else if inS pos && e.rl && (some facelet == EDGE_RL_FACELETS pos) then
      v ||| Visibility.BadFace.val
    else if some facelet == EDGE_FB_FACELETS pos then
      v ||| Visibility.BadFace.val
    else v
  else Visibility.Any.val

/-- `DRFB::corner_visibility` (`dr.rs`). -/
def corner_visibility (c : Cube) (pos : Fin 8) (facelet : Nat) : Nat :=
  let k := c.corners pos
  if !k.oriented_fb pos then
    let v := Visibility.Any.val ||| Visibility.BadPiece.val
    if facelet == k.facelet_showing_fb then v ||| Visibility.BadFace.val
    else v
  else Visibility.Any.val

end DRFB

namespace DRRL

/-- `DRRL::is_solved` (`dr.rs`): transform by Z, then `DRUD::is_solved`. -/
def is_solved (c : Cube) : Bool := DRUD.is_solved (transformZ c)

/-- `DRRL::is_eligible` (`dr.rs`). -/
def is_eligible (c : Cube) : Bool :=
  EOUD.is_solved c || EOFB.is_solved c

/-- `DRRL::case_name` (`dr.rs`). -/
def case_name (c : Cube) : String := DRUD.case_name (transformZ c)

/-- `DRRL::edge_visibility` (`dr.rs`). -/
def edge_visibility (c : Cube) (pos : Fin 12) (facelet : Nat) : Nat :=
  let e := c.edges pos
  if !e.fb || !e.ud then
    let v := Visibility.Any.val ||| Visibility.BadPiece.val
    if inM pos && e.fb && (some facelet == EDGE_FB_FACELETS pos) then
      v ||| Visibility.BadFace.val
    else if inM pos && e.ud && (some facelet == EDGE_UD_FACELETS pos) then
      v ||| Visibility.BadFace.val
    else if some facelet == EDGE_RL_FACELETS pos then
      v ||| Visibility.BadFace.val
    else v
  else Visibility.Any.val

/-- `DRRL::corner_visibility` (`dr.rs`). -/
def corner_visibility (c : Cube) (pos : Fin 8) (facelet : Nat) : Nat :=
  let k := c.corners pos
  if !k.oriented_rl pos then
    let v := Visibility.Any.val ||| Visibility.BadPiece.val
    if facelet == k.facelet_showing_rl then v ||| Visibility.BadFace.val
    else v
  else Visibility.Any.val

end DRRL

namespace HTRUD

/-- `HTRUD::is_solved` (`htr.rs`): the DR-subset descriptor reports zero
quarter turns. -/
def is_solved (c : Cube) : Bool :=
  match get_dr_subset c with
  | some s => s.qt == 0
  | none => false

/-- `HTRUD::is_eligible` (`htr.rs`): the DR-subset descriptor exists. -/
def is_eligible (c : Cube) : Bool :=
  match get_dr_subset c with
  | some _ => true
  | none => false

/-- `HTRUD::case_name` (`htr.rs`). -/
def case_name (c : Cube) : String :=
  match get_dr_subset c with
  | some s => s.label
  | none => ""

/-- `HTRUD::edge_visibility` (`htr.rs`). -/
def edge_visibility (c : Cube) (pos : Fin 12) (facelet : Nat) : Nat :=
  let e := c.edges pos
  if !e.ud then
    let v := Visibility.BadPiece.val
    if !(some facelet == EDGE_UD_FACELETS pos) then v ||| Visibility.BadFace.val
    else v
  else Visibility.Any.val

/-- `HTRUD::corner_visibility` (`htr.rs`). -/
def corner_visibility (c : Cube) (pos : Fin 8) (facelet : Nat) : Nat :=
  let k := c.corners pos
  let v := Visibility.Any.val
  let v :=
    if facelet == k.facelet_showing_ud then
      if k.id.val / 4 == 1 then v ||| Visibility.HtrD.val
      else v ||| Visibility.TopColor.val
    else v
  if !k.oriented_fb pos then
    let v := v ||| Visibility.BadPiece.val
    if !(facelet == CORNER_UD_FACELETS pos) then v ||| Visibility.BadFace.val
    else v
  else v

end HTRUD

/-- `is_equivalent` (`htr.rs`): the HTR case-identity function handed to the
deduplicating solver — transform the post-application cube by the axis
rotation, then take the minimum of the `FRUDNoSliceCoord` of the result and
of the result with U2 D2 applied. -/
def is_equivalent (t : Transformation) (c : Cube) (_alg : Alg) : Nat :=
  let c := applyTransform t c
  let coord1 := FRUDNoSliceCoordVal c
  let c2 := applyTurns c [⟨Face.U, Direction.Half⟩, ⟨Face.D, Direction.Half⟩]
  let coord2 := FRUDNoSliceCoordVal c2
  min coord1 coord2

namespace HTRFB

/-- `HTRFB::is_solved` (`htr.rs`) — textually the same body as `HTRUD`. -/
def is_solved (c : Cube) : Bool :=
  match get_dr_subset c with
  | some s => s.qt == 0
  | none => false

/-- `HTRFB::is_eligible` (`htr.rs`). -/
def is_eligible (c : Cube) : Bool :=
  match get_dr_subset c with
  | some _ => true
  | none => false

/-- `HTRFB::case_name` (`htr.rs`). -/
def case_name (c : Cube) : String :=
  match get_dr_subset c with
  | some s => s.label
  | none => ""

/-- `HTRFB::edge_visibility` (`htr.rs`). -/
def edge_visibility (c : Cube) (pos : Fin 12) (facelet : Nat) : Nat :=
  let e := c.edges pos
  let v := Visibility.Any.val
  if !e.fb then
    let v := v ||| Visibility.BadPiece.val
    if !(some facelet == EDGE_FB_FACELETS pos) then v ||| Visibility.BadFace.val
    else v
  else v

/-- `HTRFB::corner_visibility` (`htr.rs`). -/
def corner_visibility (c : Cube) (pos : Fin 8) (facelet : Nat) : Nat :=
  let k := c.corners pos
  let v := Visibility.Any.val
  let v :=
    if facelet == k.facelet_showing_fb then
      if k.id.val == 0 || k.id.val == 1 || k.id.val == 6 || k.id.val == 7 then
        v ||| Visibility.HtrD.val
      else v ||| Visibility.TopColor.val
    else v
  if !k.oriented_rl pos then
    let v := v ||| Visibility.BadPiece.val
    if !(facelet == CORNER_FB_FACELETS pos) then v ||| Visibility.BadFace.val
    else v
  else v

end HTRFB

namespace HTRRL

/-- `HTRRL::is_solved` (`htr.rs`) — delegates to `HTRUD`. -/
def is_solved (c : Cube) : Bool := HTRUD.is_solved c

/-- `HTRRL::is_eligible` (`htr.rs`). -/
def is_eligible (c : Cube) : Bool := HTRUD.is_eligible c

/-- `HTRRL::case_name` (`htr.rs`). -/
def case_name (c : Cube) : String := HTRUD.case_name c

/-- `HTRRL::edge_visibility` (`htr.rs`). -/
def edge_visibility (c : Cube) (pos : Fin 12) (facelet : Nat) : Nat :=
  let e := c.edges pos
  let v := Visibility.Any.val
  if !e.rl then
    let v := v ||| Visibility.BadPiece.val
    if !(some facelet == EDGE_RL_FACELETS pos) then v ||| Visibility.BadFace.val
    else v
  else v

/-- `HTRRL::corner_visibility` (`htr.rs`). -/
def corner_visibility (c : Cube) (pos : Fin 8) (facelet : Nat) : Nat :=
  let k := c.corners pos
  let v := Visibility.Any.val
  let v :=
    if facelet == k.facelet_showing_rl then
      if k.id.val == 1 || k.id.val == 2 || k.id.val == 5 || k.id.val == 6 then
        v ||| Visibility.HtrD.val
      else v ||| Visibility.TopColor.val
    else v
  if !k.oriented_ud pos then
    let v := v ||| Visibility.BadPiece.val
    if !(facelet == CORNER_RL_FACELETS pos) then v ||| Visibility.BadFace.val
    else v
  else v

end HTRRL

namespace FRUD

/-- `FRUD::is_solved` (`fr.rs`): the FR-no-slice coordinate is zero. -/
def is_solved (c : Cube) : Bool := FRUDNoSliceCoordVal c == 0

/-- `FRUD::is_eligible` (`fr.rs`): HTR solved on UD. -/
def is_eligible (c : Cube) : Bool := HTRUD.is_solved c

/-- `FRUD::case_name` (`fr.rs`). -/
def case_name (c : Cube) : String :=
  let parity := FROrbitParityCoordVal c == 1
  let cornerCase :=
    match FRCPOrbitCoordVal c, parity with
    | 0, true => "0c3"
    | 0, false => "0c0"
    | 3, true => "4c1"
    | 3, false => "4c2"
    | _, true => "6c1"
    | _, false => "6c2"
  let bad_edge_count :=
    ((List.finRange 12).filter (fun p =>
      !(p == EDGE_OPPOSITE_E_SLICE p) &&
      !((c.edges p).id == p) &&
      !((c.edges p).id == EDGE_OPPOSITE_E_SLICE p))).length
  let bad_edge_count := min bad_edge_count bad_edge_count
  cornerCase ++ " " ++ toString bad_edge_count ++ "e"

/-- `FRUD::edge_visibility` (`fr.rs`). -/
def edge_visibility (c : Cube) (pos : Fin 12) (facelet : Nat) : Nat :=
  let e := c.edges pos
  let v := Visibility.Any.val
  if !(pos == EDGE_OPPOSITE_E_SLICE pos) && !(e.id == pos) &&
      !(e.id == EDGE_OPPOSITE_E_SLICE pos) then
    let v := v ||| Visibility.BadPiece.val
    if !(some facelet == EDGE_UD_FACELETS pos) then v ||| Visibility.BadFace.val
    else v
  else v

/-- `FRUD::corner_visibility` (`fr.rs`). -/
def corner_visibility (c : Cube) (pos : Fin 8) (facelet : Nat) : Nat :=
  let k := c.corners pos
  let kopp := c.corners (CORNER_OPPOSITE_E_SLICE pos)
  let v := Visibility.Any.val
  if k.id.val == 2 || k.id.val == 5 then
    if !(kopp.id == CORNER_OPPOSITE_E_SLICE k.id) then
      let v := v ||| Visibility.BadPiece.val
      if !(facelet == CORNER_UD_FACELETS pos) then v ||| Visibility.BadFace.val
      else v
    else v
  else v

end FRUD

namespace FRFB

/-- `FRFB::is_solved` (`fr.rs`): transform by X, then `FRUD::is_solved`. -/
def is_solved (c : Cube) : Bool := FRUD.is_solved (transformX c)

/-- `FRFB::is_eligible` (`fr.rs`): HTR solved on FB. -/
def is_eligible (c : Cube) : Bool := HTRFB.is_solved c

/-- `FRFB::case_name` (`fr.rs`). -/
def case_name (c : Cube) : String := FRUD.case_name (transformX c)

/-- `FRFB::edge_visibility` (`fr.rs`). -/
def edge_visibility (c : Cube) (pos : Fin 12) (facelet : Nat) : Nat :=
  let e := c.edges pos
  let v := Visibility.Any.val
  if !(pos == EDGE_OPPOSITE_S_SLICE pos) && !(e.id == pos) &&
      !(e.id == EDGE_OPPOSITE_S_SLICE pos) then
    let v := v ||| Visibility.BadPiece.val
    if !(some facelet == EDGE_FB_FACELETS pos) then v ||| Visibility.BadFace.val
    else v
  else v

/-- `FRFB::corner_visibility` (`fr.rs`). -/
def corner_visibility (c : Cube) (pos : Fin 8) (facelet : Nat) : Nat :=
  let k := c.corners pos
  let kopp := c.corners (CORNER_OPPOSITE_S_SLICE pos)
  let v := Visibility.Any.val
  if k.id.val == 1 || k.id.val == 2 then
    if !(kopp.id == CORNER_OPPOSITE_S_SLICE k.id) then
      let v := v ||| Visibility.BadPiece.val
      if !(facelet == CORNER_FB_FACELETS pos) then v ||| Visibility.BadFace.val
      else v
    else v
  else v

end FRFB

namespace FRRL

/-- `FRRL::is_solved` (`fr.rs`): transform by Z, then `FRUD::is_solved`. -/
def is_solved (c : Cube) : Bool := FRUD.is_solved (transformZ c)

/-- `FRRL::is_eligible` (`fr.rs`): HTR solved on RL. -/
def is_eligible (c : Cube) : Bool := HTRRL.is_solved c

/-- `FRRL::case_name` (`fr.rs`). -/
def case_name (c : Cube) : String := FRUD.case_name (transformZ c)

/-- `FRRL::edge_visibility` (`fr.rs`). -/
def edge_visibility (c : Cube) (pos : Fin 12) (facelet : Nat) : Nat :=
  let e := c.edges pos
  let v := Visibility.Any.val
  if !(pos == EDGE_OPPOSITE_M_SLICE pos) && !(e.id == pos) &&
      !(e.id == EDGE_OPPOSITE_M_SLICE pos) then
    let v := v ||| Visibility.BadPiece.val
    if !(some facelet == EDGE_RL_FACELETS pos) then v ||| Visibility.BadFace.val
    else v
  else v

/-- `FRRL::corner_visibility` (`fr.rs`). -/
def corner_visibility (c : Cube) (pos : Fin 8) (facelet : Nat) : Nat :=
  let k := c.corners pos
  let kopp := c.corners (CORNER_OPPOSITE_M_SLICE pos)
  let v := Visibility.Any.val
  if k.id.val == 2 || k.id.val == 3 then
    if !(kopp.id == CORNER_OPPOSITE_M_SLICE k.id) then
      let v := v ||| Visibility.BadPiece.val
      if !(facelet == CORNER_RL_FACELETS pos) then v ||| Visibility.BadFace.val
      else v
    else v
  else v

end FRRL

namespace SliceUD

/-- `SliceUD::is_solved` (`slice.rs`): the HTR-leave-slice coordinate is
zero. -/
def is_solved (c : Cube) : Bool := HTRLeaveSliceFinishCoordVal c == 0

/-- `SliceUD::is_eligible` (`slice.rs`): HTR solved on UD. -/
def is_eligible (c : Cube) : Bool := HTRUD.is_solved c

/-- `SliceUD::case_name` (`slice.rs`): count non-slice edges and corners out
of their home positions. -/
def case_name (c : Cube) : String :=
  let bad_edge_count :=
    ((List.finRange 12).filter (fun p => !inE p && !((c.edges p).id == p))).length
  let bad_corner_count :=
    ((List.finRange 8).filter (fun p => !((c.corners p).id == p))).length
  toString bad_corner_count ++ "c" ++ toString bad_edge_count ++ "e"

/-- `SliceUD::edge_visibility` (`slice.rs`). -/
def edge_visibility (_c : Cube) (pos : Fin 12) (_facelet : Nat) : Nat :=
  if inE pos then Visibility.Any.val
  else Visibility.BadPiece.val ||| Visibility.BadFace.val

/-- `SliceUD::corner_visibility` (`slice.rs`). -/
def corner_visibility (_c : Cube) (_pos : Fin 8) (_facelet : Nat) : Nat :=
  Visibility.BadFace.val ||| Visibility.BadPiece.val

end SliceUD

namespace SliceFB

/-- `SliceFB::is_solved` (`slice.rs`): transform by X, then `SliceUD`. -/
def is_solved (c : Cube) : Bool := SliceUD.is_solved (transformX c)

/-- `SliceFB::is_eligible` (`slice.rs`): HTR solved on FB. -/
def is_eligible (c : Cube) : Bool := HTRFB.is_solved c

/-- `SliceFB::case_name` (`slice.rs`). -/
def case_name (c : Cube) : String := SliceUD.case_name (transformX c)

/-- `SliceFB::edge_visibility` (`slice.rs`). -/
def edge_visibility (_c : Cube) (pos : Fin 12) (_facelet : Nat) : Nat :=
  if inS pos then Visibility.Any.val
  else Visibility.BadPiece.val ||| Visibility.BadFace.val

/-- `SliceFB::corner_visibility` (`slice.rs`). -/
def corner_visibility (_c : Cube) (_pos : Fin 8) (_facelet : Nat) : Nat :=
  Visibility.BadPiece.val ||| Visibility.BadFace.val

end SliceFB

namespace SliceRL

/-- `SliceRL::is_solved` (`slice.rs`): transform by Z, then `SliceUD`. -/
def is_solved (c : Cube) : Bool := SliceUD.is_solved (transformZ c)

/-- `SliceRL::is_eligible` (`slice.rs`): HTR solved on RL. -/
def is_eligible (c : Cube) : Bool := HTRRL.is_solved c

/-- `SliceRL::case_name` (`slice.rs`). -/
def case_name (c : Cube) : String := SliceUD.case_name (transformZ c)

/-- `SliceRL::edge_visibility` (`slice.rs`). -/
def edge_visibility (_c : Cube) (pos : Fin 12) (_facelet : Nat) : Nat :=
  if inM pos then Visibility.Any.val
  else Visibility.BadPiece.val ||| Visibility.BadFace.val

/-- `SliceRL::corner_visibility` (`slice.rs`). -/
def corner_visibility (_c : Cube) (_pos : Fin 8) (_facelet : Nat) : Nat :=
  Visibility.BadPiece.val ||| Visibility.BadFace.val

end SliceRL

namespace Finish

/-- `Finish::is_solved` (`finish.rs`): the HTR-finish coordinate is zero. -/
def is_solved (c : Cube) : Bool := HTRFinishCoordVal c == 0

/-- `Finish::is_eligible` (`finish.rs`): always true. -/
def is_eligible (_c : Cube) : Bool := true

/-- `Finish::case_name` (`finish.rs`): concatenated counts with zero-count
segments omitted. -/
def case_name (c : Cube) : String :=
  let bad_edge_count :=
    ((List.finRange 12).filter (fun p => !((c.edges p).id == p))).length
  let bad_corner_count :=
    ((List.finRange 8).filter (fun p => !((c.corners p).id == p))).length
  let c_string :=
    if bad_corner_count > 0 then toString bad_corner_count ++ "c" else ""
  let e_string :=
    if bad_edge_count > 0 then toString bad_edge_count ++ "e" else ""
  c_string ++ e_string

/-- `Finish::edge_visibility` (`finish.rs`). -/
def edge_visibility (c : Cube) (pos : Fin 12) (_facelet : Nat) : Nat :=
  let v := Visibility.Any.val
  if !((c.edges pos).id == pos) then
    v ||| Visibility.BadPiece.val ||| Visibility.BadFace.val
  else v

/-- `Finish::corner_visibility` (`finish.rs`). -/
def corner_visibility (c : Cube) (pos : Fin 8) (_facelet : Nat) : Nat :=
  let v := Visibility.Any.val
  if !((c.corners pos).id == pos) then
    v ||| Visibility.BadPiece.val ||| Visibility.BadFace.val
  else v

end Finish

namespace SCRAMBLED

/-- `SCRAMBLED::is_solved` (`lib.rs`): always true. -/
def is_solved (_c : Cube) : Bool := true

/-- `SCRAMBLED::is_eligible` (`lib.rs`): always true. -/
def is_eligible (_c : Cube) : Bool := true

/-- `SCRAMBLED::case_name` (`lib.rs`): the empty string. -/
def case_name (_c : Cube) : String := ""

/-- `SCRAMBLED::edge_visibility` (`lib.rs`): neutral everywhere. -/
def edge_visibility (_c : Cube) (_pos : Fin 12) (_facelet : Nat) : Nat :=
  Visibility.Any.val

/-- `SCRAMBLED::corner_visibility` (`lib.rs`): neutral everywhere. -/
def corner_visibility (_c : Cube) (_pos : Fin 8) (_facelet : Nat) : Nat :=
  Visibility.Any.val

end SCRAMBLED

/-- The seventeen stage handles constructible through `StepBuilder::from_kind`
(`lib.rs`): EO, DR, HTR, FR and Slice in their three axis variants, plus
Finish and the scrambled identity stage. -/
inductive StageHandle where
| eoud
| eofb
| eorl
| drud
| drfb
| drrl
| htrud
| htrfb
| htrrl
| frud
| frfb
| frrl
| sliceud
| slicefb
| slicerl
| finish
| scrambled
deriving DecidableEq

/-- `is_solved` dispatched over the stage handles. -/
def isSolvedOf : StageHandle → Cube → Bool
| .eoud => EOUD.is_solved
| .eofb => EOFB.is_solved
| .eorl => EORL.is_solved
| .drud => DRUD.is_solved
| .drfb => DRFB.is_solved
| .drrl => DRRL.is_solved
| .htrud => HTRUD.is_solved
| .htrfb => HTRFB.is_solved
| .htrrl => HTRRL.is_solved
| .frud => FRUD.is_solved
| .frfb => FRFB.is_solved
| .frrl => FRRL.is_solved
| .sliceud => SliceUD.is_solved
| .slicefb => SliceFB.is_solved
| .slicerl => SliceRL.is_solved
| .finish => Finish.is_solved
| .scrambled => SCRAMBLED.is_solved

/-- `is_eligible` dispatched over the stage handles. -/
def isEligibleOf : StageHandle → Cube → Bool
| .eoud => EOUD.is_eligible
| .eofb => EOFB.is_eligible
| .eorl => EORL.is_eligible
| .drud => DRUD.is_eligible
| .drfb => DRFB.is_eligible
| .drrl => DRRL.is_eligible
| .htrud => HTRUD.is_eligible
| .htrfb => HTRFB.is_eligible
| .htrrl => HTRRL.is_eligible
| .frud => FRUD.is_eligible
| .frfb => FRFB.is_eligible
| .frrl => FRRL.is_eligible
| .sliceud => SliceUD.is_eligible
| .slicefb => SliceFB.is_eligible
| .slicerl => SliceRL.is_eligible
| .finish => Finish.is_eligible
| .scrambled => SCRAMBLED.is_eligible

/-- `edge_visibility` dispatched over the stage handles. -/
def edgeVisOf : StageHandle → Cube → Fin 12 → Nat → Nat
| .eoud => EOUD.edge_visibility
| .eofb => EOFB.edge_visibility
| .eorl => EORL.edge_visibility
| .drud => DRUD.edge_visibility
| .drfb => DRFB.edge_visibility
| .drrl => DRRL.edge_visibility
| .htrud => HTRUD.edge_visibility
| .htrfb => HTRFB.edge_visibility
| .htrrl => HTRRL.edge_visibility
| .frud => FRUD.edge_visibility
| .frfb => FRFB.edge_visibility
| .frrl => FRRL.edge_visibility
| .sliceud => SliceUD.edge_visibility
| .slicefb => SliceFB.edge_visibility
| .slicerl => SliceRL.edge_visibility
| .finish => Finish.edge_visibility
| .scrambled => SCRAMBLED.edge_visibility

/-- `corner_visibility` dispatched over the stage handles. -/
def cornerVisOf : StageHandle → Cube → Fin 8 → Nat → Nat
| .eoud => EOUD.corner_visibility
| .eofb => EOFB.corner_visibility
| .eorl => EORL.corner_visibility
| .drud => DRUD.corner_visibility
| .drfb => DRFB.corner_visibility
| .drrl => DRRL.corner_visibility
| .htrud => HTRUD.corner_visibility
| .htrfb => HTRFB.corner_visibility
| .htrrl => HTRRL.corner_visibility
| .frud => FRUD.corner_visibility
| .frfb => FRFB.corner_visibility
| .frrl => FRRL.corner_visibility
| .sliceud => SliceUD.corner_visibility
| .slicefb => SliceFB.corner_visibility
| .slicerl => SliceRL.corner_visibility
| .finish => Finish.corner_visibility
| .scrambled => SCRAMBLED.corner_visibility

/-- The cube reached from solved by the scramble `R U2`
(`test_drud_coord`, `dr.rs`). -/
def cubeRU2 : Cube :=
  applyTurns solvedCube
    [⟨Face.R, Direction.CW⟩, ⟨Face.U, Direction.Half⟩]

/-- The cube reached from solved by the scramble `R U`. -/
def cubeRU : Cube :=
  applyTurns solvedCube
    [⟨Face.R, Direction.CW⟩, ⟨Face.U, Direction.CW⟩]

/-- The cube reached from solved by `U2`. -/
def cubeU2 : Cube :=
  applyTurns solvedCube [⟨Face.U, Direction.Half⟩]

/-- The cube reached from solved by `F2` — one floppy side half-turn, inside
the FR-UD leave-slice target. -/
def cubeF2 : Cube :=
  applyTurns solvedCube [⟨Face.F, Direction.Half⟩]

/-- The `U2 D2` move sequence used by the HTR case-identity function. -/
def u2d2Turns : List Turn :=
  [⟨Face.U, Direction.Half⟩, ⟨Face.D, Direction.Half⟩]

/-- The side of an algorithm selected by the `inverse` flag of
`append_move`. -/
def sideOf (a : Alg) (inv : Bool) : List Turn :=
  match inv with
  | true => a.inverse
  | false => a.normal

/-- The FR corner-case table exactly as the specification states it:
`(0,false)→0c0, (0,true)→0c3, (3,false)→4c2, (3,true)→4c1, (other,false)→6c2,
(other,true)→6c1`. -/
def frCornerCaseSpec (coord : Nat) (parity : Bool) : String :=
  match coord, parity with
  | 0, true => "0c3"
  | 0, false => "0c0"
  | 3, true => "4c1"
  | 3, false => "4c2"
  | _, true => "6c1"
  | _, false => "6c2"

/-- The amended bad-edge count for `FRUD::case_name`: non-E-slice positions
whose resident edge is neither the position's own edge nor the position's
E-opposite edge. -/
def frBadEdgeCountSpec (c : Cube) : Nat :=
  ((List.finRange 12).filter (fun p =>
    !(p == EDGE_OPPOSITE_E_SLICE p) &&
    !((c.edges p).id == p) &&
    !((c.edges p).id == EDGE_OPPOSITE_E_SLICE p))).length

/-- The bad-edge count as the claim words it: E-slice edges that are neither
in their own position nor in their opposite-slot position. -/
def frBadSliceEdgeCountClaim (c : Cube) : Nat :=
  ((List.finRange 12).filter (fun p =>
    inE (c.edges p).id &&
    !((c.edges p).id == p) &&
    !((c.edges p).id == EDGE_OPPOSITE_E_SLICE p))).length

theorem Turn.invert_invert (t : Turn) : t.invert.invert = t := by
  cases t with
  | mk f d => cases d <;> rfl

theorem edgesAll_iff (f : Fin 12 → Edge → Bool) (c : Cube) :
    edgesAll f c = true ↔ ∀ p, f p (c.edges p) = true := by
  simp [edgesAll, List.all_eq_true, List.mem_finRange]

theorem cornersAll_iff (f : Fin 8 → Corner → Bool) (c : Cube) :
    cornersAll f c = true ↔ ∀ p, f p (c.corners p) = true := by
  simp [cornersAll, List.all_eq_true, List.mem_finRange]

theorem countBadUD_eq_zero (c : Cube) :
    countBadUD c = 0 ↔ ∀ p, (c.edges p).ud = true := by
  simp [countBadUD, List.filter_eq_nil_iff, List.mem_finRange,
    List.length_eq_zero]

theorem countBadFB_eq_zero (c : Cube) :
    countBadFB c = 0 ↔ ∀ p, (c.edges p).fb = true := by
  simp [countBadFB, List.filter_eq_nil_iff, List.mem_finRange,
    List.length_eq_zero]

theorem countBadLR_eq_zero (c : Cube) :
    countBadLR c = 0 ↔ ∀ p, (c.edges p).rl = true := by
  simp [countBadLR, List.filter_eq_nil_iff, List.mem_finRange,
    List.length_eq_zero]

theorem xPreE_xFwdE : ∀ q, xPreE (xFwdE q) = q := by decide

theorem xPreC_xFwdC : ∀ q, xPreC (xFwdC q) = q := by decide

theorem zPreE_zFwdE : ∀ q, zPreE (zFwdE q) = q := by decide

theorem zPreC_zFwdC : ∀ q, zPreC (zFwdC q) = q := by decide

theorem transformX_edge (c : Cube) (q : Fin 12) :
    (transformX c).edges (xFwdE q) = relabelEdgeX (c.edges q) := by
  show relabelEdgeX (c.edges (xPreE (xFwdE q))) = _
  rw [xPreE_xFwdE]

theorem transformX_corner (c : Cube) (q : Fin 8) :
    (transformX c).corners (xFwdC q) = relabelCornerX q (c.corners q) := by
  show relabelCornerX (xPreC (xFwdC q)) (c.corners (xPreC (xFwdC q))) = _
  rw [xPreC_xFwdC]

theorem transformZ_edge (c : Cube) (q : Fin 12) :
    (transformZ c).edges (zFwdE q) = relabelEdgeZ (c.edges q) := by
  show relabelEdgeZ (c.edges (zPreE (zFwdE q))) = _
  rw [zPreE_zFwdE]

theorem transformZ_corner (c : Cube) (q : Fin 8) :
    (transformZ c).corners (zFwdC q) = relabelCornerZ q (c.corners q) := by
  show relabelCornerZ (zPreC (zFwdC q)) (c.corners (zPreC (zFwdC q))) = _
  rw [zPreC_zFwdC]

theorem edgesAll_imp {f g : Fin 12 → Edge → Bool}
    (h : ∀ p e, f p e = true → g p e = true) (c : Cube)
    (hc : edgesAll f c = true) : edgesAll g c = true := by
  rw [edgesAll_iff] at hc ⊢
  intro p
  exact h p _ (hc p)

theorem cornersAll_imp {f g : Fin 8 → Corner → Bool}
    (h : ∀ p k, f p k = true → g p k = true) (c : Cube)
    (hc : cornersAll f c = true) : cornersAll g c = true := by
  rw [cornersAll_iff] at hc ⊢
  intro p
  exact h p _ (hc p)

theorem edgesAll_transX {f g : Fin 12 → Edge → Bool}
    (h : ∀ q e, f (xFwdE q) (relabelEdgeX e) = true → g q e = true) (c : Cube)
    (hc : edgesAll f (transformX c) = true) : edgesAll g c = true := by
  rw [edgesAll_iff] at hc ⊢
  intro q
  have hq := hc (xFwdE q)
  rw [transformX_edge] at hq
  exact h q _ hq

theorem cornersAll_transX {f g : Fin 8 → Corner → Bool}
    (h : ∀ q k, f (xFwdC q) (relabelCornerX q k) = true → g q k = true)
    (c : Cube) (hc : cornersAll f (transformX c) = true) :
    cornersAll g c = true := by
  rw [cornersAll_iff] at hc ⊢
  intro q
  have hq := hc (xFwdC q)
  rw [transformX_corner] at hq
  exact h q _ hq

theorem edgesAll_transZ {f g : Fin 12 → Edge → Bool}
    (h : ∀ q e, f (zFwdE q) (relabelEdgeZ e) = true → g q e = true) (c : Cube)
    (hc : edgesAll f (transformZ c) = true) : edgesAll g c = true := by
  rw [edgesAll_iff] at hc ⊢
  intro q
  have hq := hc (zFwdE q)
  rw [transformZ_edge] at hq
  exact h q _ hq

theorem cornersAll_transZ {f g : Fin 8 → Corner → Bool}
    (h : ∀ q k, f (zFwdC q) (relabelCornerZ q k) = true → g q k = true)
    (c : Cube) (hc : cornersAll f (transformZ c) = true) :
    cornersAll g c = true := by
  rw [cornersAll_iff] at hc ⊢
  intro q
  have hq := hc (zFwdC q)
  rw [transformZ_corner] at hq
  exact h q _ hq

/-- C1: Starting from the solved cube and applying the move sequence `R U2`,
the DRUDEOFB coordinate of the resulting cube is nonzero, and equivalently
`DRUD::is_solved` is false on that cube. -/
theorem c1_drud_coord_nonzero_after_RU2 :
    DRUDEOFBCoordVal cubeRU2 ≠ 0 ∧ DRUD.is_solved cubeRU2 = false := by
  constructor
  · decide
  · decide

/-- C2 counterexample: on the cube reached by `R U`, `Finish::is_eligible`
returns true although HTR is not solved on the UD axis, so eligibility is not
equivalent to HTR-UD being solved. -/
theorem c2_counterexample_finish_eligible_without_htr :
    Finish.is_eligible cubeRU = true ∧ HTRUD.is_solved cubeRU = false := by
  constructor
  · rfl
  · decide

/-- C2 (amended): `Finish::is_eligible` returns true for every cube; it does
not require HTR to be solved on the UD axis. -/
theorem c2_amended_finish_always_eligible (c : Cube) :
    Finish.is_eligible c = true := rfl

/-- C3 counterexample: on the cube reached by `U2`, `FRUD::case_name` does not
report the number of E-slice edges out of their own and opposite positions —
the slice is untouched yet the name reports four bad edges. -/
theorem c3_counterexample_case_name_not_slice_count :
    FRUD.case_name cubeU2 ≠
      frCornerCaseSpec (FRCPOrbitCoordVal cubeU2)
        (FROrbitParityCoordVal cubeU2 == 1) ++ " " ++
      toString (frBadSliceEdgeCountClaim cubeU2) ++ "e" := by
  decide

/-- C3 (amended): `FRUD::case_name` is the corner case given by the
FR corner-orbit coordinate and the orbit parity through the stated table,
followed by the count of non-E-slice positions whose edge is neither the
position's own edge nor the position's E-opposite edge. -/
theorem c3_amended_fr_case_name (c : Cube) :
    FRUD.case_name c =
      frCornerCaseSpec (FRCPOrbitCoordVal c)
        (FROrbitParityCoordVal c == 1) ++ " " ++
      toString (frBadEdgeCountSpec c) ++ "e" := by
  simp only [FRUD.case_name, frCornerCaseSpec, frBadEdgeCountSpec,
    Nat.min_self]

/-- C6 counterexample: on the cube reached by `F2` (a state inside the FR-UD
leave-slice target, so its FRUD-no-slice coordinate is zero), the dedup case
identity computed by `is_equivalent` for the FB axis differs from the minimum
of the FRUD-no-slice coordinates of the untransformed cube and of that cube
with U2 D2 applied: the code first applies the axis pre-rotation X, which
carries the F2 state onto the U2 state, and neither the U2 state nor the U2
state followed by U2 D2 (the D2 state) lies in the target. -/
theorem c6_counterexample_case_id_uses_transform :
    is_equivalent Transformation.X cubeF2 ⟨[], []⟩ ≠
      min (FRUDNoSliceCoordVal cubeF2)
        (FRUDNoSliceCoordVal (applyTurns cubeF2 u2d2Turns)) := by
  decide

/-- C6 (amended): the HTR case identity equals the minimum of the
FRUD-no-slice coordinate of the post-application cube after the axis
pre-rotation (Y for UD, X for FB, Z for RL) and of that transformed cube with
U2 D2 applied. -/
theorem c6_amended_case_id (t : Transformation) (c : Cube) (a : Alg) :
    is_equivalent t c a =
      min (FRUDNoSliceCoordVal (applyTransform t c))
        (FRUDNoSliceCoordVal (applyTurns (applyTransform t c) u2d2Turns)) :=
  rfl

/-- C7 counterexample: on the solved cube, `Finish::edge_visibility` and
`Finish::corner_visibility` return bytes with neither BAD_PIECE nor BAD_FACE
set, so not every sticker is marked bad. -/
theorem c7_counterexample_finish_visibility_not_all_bad :
    Finish.edge_visibility solvedCube 0 0 &&&
      (Visibility.BadPiece.val ||| Visibility.BadFace.val) = 0 ∧
    Finish.corner_visibility solvedCube 0 0 &&&
      (Visibility.BadPiece.val ||| Visibility.BadFace.val) = 0 := by
  constructor
  · decide
  · decide

/-- C7 (amended): at the Finish stage a sticker carries BAD_PIECE and
BAD_FACE exactly when its piece is out of its home position; in-place pieces
stay ANY. -/
theorem c7_amended_finish_visibility (c : Cube) (p : Fin 12) (q : Fin 8)
    (f g : Nat) :
    (Finish.edge_visibility c p f =
      if (c.edges p).id = p then Visibility.Any.val
      else Visibility.Any.val ||| Visibility.BadPiece.val |||
        Visibility.BadFace.val) ∧
    (Finish.corner_visibility c q g =
      if (c.corners q).id = q then Visibility.Any.val
      else Visibility.Any.val ||| Visibility.BadPiece.val |||
        Visibility.BadFace.val) := by
  constructor
  · by_cases h : (c.edges p).id = p <;>
      simp [Finish.edge_visibility, h]
  · by_cases h : (c.corners q).id = q <;>
      simp [Finish.corner_visibility, h]

/-- C8: for the EO stage on each axis, `case_name` is the bad-edge count
followed by `e`, mis-oriented edges get `BAD_FACE|BAD_PIECE` on every facelet
while oriented edges stay ANY, and corners are always ANY. -/
theorem c8_eo_classifier (c : Cube) (p : Fin 12) (q : Fin 8) (f g : Nat) :
    (EOUD.case_name c = toString (countBadUD c) ++ "e" ∧
      EOUD.edge_visibility c p f =
        (if (c.edges p).ud then Visibility.Any.val
         else Visibility.BadFace.val ||| Visibility.BadPiece.val) ∧
      EOUD.corner_visibility c q g = Visibility.Any.val) ∧
    (EOFB.case_name c = toString (countBadFB c) ++ "e" ∧
      EOFB.edge_visibility c p f =
        (if (c.edges p).fb then Visibility.Any.val
         else Visibility.BadFace.val ||| Visibility.BadPiece.val) ∧
      EOFB.corner_visibility c q g = Visibility.Any.val) ∧
    (EORL.case_name c = toString (countBadLR c) ++ "e" ∧
      EORL.edge_visibility c p f =
        (if (c.edges p).rl then Visibility.Any.val
         else Visibility.BadFace.val ||| Visibility.BadPiece.val) ∧
      EORL.corner_visibility c q g = Visibility.Any.val) := by
  refine ⟨⟨rfl, ?_, rfl⟩, ⟨rfl, ?_, rfl⟩, ⟨rfl, ?_, rfl⟩⟩
  · cases h : (c.edges p).ud <;> simp [EOUD.edge_visibility, h]
  · cases h : (c.edges p).fb <;> simp [EOFB.edge_visibility, h]
  · cases h : (c.edges p).rl <;> simp [EORL.edge_visibility, h]

/-- C10: the three HTR axis variants agree on `is_solved`, `is_eligible` and
`case_name` for every cube — HTR classification is axis-independent. -/
theorem c10_htr_axis_independent (c : Cube) :
    HTRFB.is_solved c = HTRUD.is_solved c ∧
    HTRRL.is_solved c = HTRUD.is_solved c ∧
    HTRFB.is_eligible c = HTRUD.is_eligible c ∧
    HTRRL.is_eligible c = HTRUD.is_eligible c ∧
    HTRFB.case_name c = HTRUD.case_name c ∧
    HTRRL.case_name c = HTRUD.case_name c :=
  ⟨rfl, rfl, rfl, rfl, rfl, rfl⟩

/-- C4 counterexample: appending F and then F-inverse to the normal side of
the algorithm F-inverse B2 does not restore the algorithm as an ordered move
sequence — the result is B2 F-inverse. -/
theorem c4_counterexample_append_reorders :
    append_move
      (append_move
        (Alg.mk [⟨Face.F, Direction.CCW⟩, ⟨Face.B, Direction.Half⟩] [])
        ⟨Face.F, Direction.CW⟩ false)
      (Turn.invert ⟨Face.F, Direction.CW⟩) false ≠
    Alg.mk [⟨Face.F, Direction.CCW⟩, ⟨Face.B, Direction.Half⟩] [] := by
  decide

theorem appendList_push {l : List Turn} {t : Turn}
    (h : cancelScan l.reverse t = none) : appendList l t = l ++ [t] := by
  unfold appendList
  rw [h]

theorem appendList_pop (l : List Turn) (t : Turn) :
    appendList (l ++ [t]) t.invert = l := by
  unfold appendList
  rw [List.reverse_append]
  simp [cancelScan, Turn.invert_invert]

/-- C4 (amended): appending M and then M-inverse to the same side yields the
original algorithm provided appending M triggers no cancellation; when M
cancels against an earlier move the ordered sequence can change. -/
theorem c4_amended_append_cancel (a : Alg) (t : Turn) (inv : Bool)
    (h : cancelScan (sideOf a inv).reverse t = none) :
    append_move (append_move a t inv) t.invert inv = a := by
  cases a with
  | mk n i =>
    cases inv
    · simp only [sideOf] at h
      simp only [append_move]
      rw [appendList_push h, appendList_pop]
    · simp only [sideOf] at h
      simp only [append_move]
      rw [appendList_push h, appendList_pop]

/-- Witness for C4 (amended) at a concrete input: appending F to the
single-move algorithm U cancels nothing, and appending F then F-inverse
restores the algorithm. -/
theorem c4_amended_witness :
    cancelScan (sideOf (Alg.mk [⟨Face.U, Direction.CW⟩] []) false).reverse
      ⟨Face.F, Direction.CW⟩ = none ∧
    append_move
      (append_move (Alg.mk [⟨Face.U, Direction.CW⟩] [])
        ⟨Face.F, Direction.CW⟩ false)
      (Turn.invert ⟨Face.F, Direction.CW⟩) false =
    Alg.mk [⟨Face.U, Direction.CW⟩] [] :=
  ⟨by decide,
   c4_amended_append_cancel (Alg.mk [⟨Face.U, Direction.CW⟩] [])
     ⟨Face.F, Direction.CW⟩ false (by decide)⟩

theorem frEdge_drud : ∀ (p : Fin 12) (e : Edge),
    frEdgeOK p e = true → drudEdgeOK p e = true := by decide

theorem htrCorner_drud : ∀ (p : Fin 8) (k : Corner),
    htrCornerOK p k = true → drudCornerOK p k = true := by decide

theorem frEdge_htr : ∀ (p : Fin 12) (e : Edge),
    frEdgeOK p e = true → htrEdgeOK p e = true := by decide

theorem frEdgeX_drfb : ∀ (q : Fin 12) (e : Edge),
    frEdgeOK (xFwdE q) (relabelEdgeX e) = true →
    drfbEdgeOK q e = true := by decide

theorem htrCornerX_drfb : ∀ (q : Fin 8) (k : Corner),
    htrCornerOK (xFwdC q) (relabelCornerX q k) = true →
    drfbCornerOK q k = true := by decide

theorem frEdgeX_htr : ∀ (q : Fin 12) (e : Edge),
    frEdgeOK (xFwdE q) (relabelEdgeX e) = true →
    htrEdgeOK q e = true := by decide

theorem htrCornerX_htr : ∀ (q : Fin 8) (k : Corner),
    htrCornerOK (xFwdC q) (relabelCornerX q k) = true →
    htrCornerOK q k = true := by decide

theorem frEdgeZ_drrl : ∀ (q : Fin 12) (e : Edge),
    frEdgeOK (zFwdE q) (relabelEdgeZ e) = true →
    drrlEdgeOK q e = true := by decide

theorem htrCornerZ_drrl : ∀ (q : Fin 8) (k : Corner),
    htrCornerOK (zFwdC q) (relabelCornerZ q k) = true →
    drrlCornerOK q k = true := by decide

theorem frEdgeZ_htr : ∀ (q : Fin 12) (e : Edge),
    frEdgeOK (zFwdE q) (relabelEdgeZ e) = true →
    htrEdgeOK q e = true := by decide

theorem htrCornerZ_htr : ∀ (q : Fin 8) (k : Corner),
    htrCornerOK (zFwdC q) (relabelCornerZ q k) = true →
    htrCornerOK q k = true := by decide

theorem sliceEdge_drud : ∀ (p : Fin 12) (e : Edge),
    sliceFinEdgeOK p e = true → drudEdgeOK p e = true := by decide

theorem sliceCorner_drud : ∀ (p : Fin 8) (k : Corner),
    sliceFinCornerOK p k = true → drudCornerOK p k = true := by decide

theorem sliceEdge_htr : ∀ (p : Fin 12) (e : Edge),
    sliceFinEdgeOK p e = true → htrEdgeOK p e = true := by decide

theorem sliceCorner_htr : ∀ (p : Fin 8) (k : Corner),
    sliceFinCornerOK p k = true → htrCornerOK p k = true := by decide

theorem sliceEdgeX_drfb : ∀ (q : Fin 12) (e : Edge),
    sliceFinEdgeOK (xFwdE q) (relabelEdgeX e) = true →
    drfbEdgeOK q e = true := by decide

theorem sliceCornerX_drfb : ∀ (q : Fin 8) (k : Corner),
    sliceFinCornerOK (xFwdC q) (relabelCornerX q k) = true →
    drfbCornerOK q k = true := by decide

theorem sliceEdgeX_htr : ∀ (q : Fin 12) (e : Edge),
    sliceFinEdgeOK (xFwdE q) (relabelEdgeX e) = true →
    htrEdgeOK q e = true := by decide

theorem sliceCornerX_htr : ∀ (q : Fin 8) (k : Corner),
    sliceFinCornerOK (xFwdC q) (relabelCornerX q k) = true →
    htrCornerOK q k = true := by decide

theorem sliceEdgeZ_drrl : ∀ (q : Fin 12) (e : Edge),
    sliceFinEdgeOK (zFwdE q) (relabelEdgeZ e) = true →
    drrlEdgeOK q e = true := by decide

theorem sliceCornerZ_drrl : ∀ (q : Fin 8) (k : Corner),
    sliceFinCornerOK (zFwdC q) (relabelCornerZ q k) = true →
    drrlCornerOK q k = true := by decide

theorem sliceEdgeZ_htr : ∀ (q : Fin 12) (e : Edge),
    sliceFinEdgeOK (zFwdE q) (relabelEdgeZ e) = true →
    htrEdgeOK q e = true := by decide

theorem sliceCornerZ_htr : ∀ (q : Fin 8) (k : Corner),
    sliceFinCornerOK (zFwdC q) (relabelCornerZ q k) = true →
    htrCornerOK q k = true := by decide

theorem frTarget_parts {c : Cube} (h : inFRUDTarget c = true) :
    edgesAll frEdgeOK c = true ∧ cornersAll htrCornerOK c = true := by
  simp only [inFRUDTarget, Bool.and_eq_true] at h
  exact ⟨h.1.1, h.1.2⟩

theorem frTarget_drud {c : Cube} (h : inFRUDTarget c = true) :
    inDRUD c = true := by
  obtain ⟨he, hk⟩ := frTarget_parts h
  simp only [inDRUD, Bool.and_eq_true]
  exact ⟨edgesAll_imp frEdge_drud c he,
    cornersAll_imp htrCorner_drud c hk⟩

theorem frTarget_htr {c : Cube} (h : inFRUDTarget c = true) :
    inHTRState c = true := by
  obtain ⟨he, hk⟩ := frTarget_parts h
  simp only [inHTRState, Bool.and_eq_true]
  exact ⟨edgesAll_imp frEdge_htr c he, hk⟩

theorem frTargetX_drfb {c : Cube} (h : inFRUDTarget (transformX c) = true) :
    inDRFB c = true := by
  obtain ⟨he, hk⟩ := frTarget_parts h
  simp only [inDRFB, Bool.and_eq_true]
  exact ⟨edgesAll_transX frEdgeX_drfb c he,
    cornersAll_transX htrCornerX_drfb c hk⟩

theorem frTargetX_htr {c : Cube} (h : inFRUDTarget (transformX c) = true) :
    inHTRState c = true := by
  obtain ⟨he, hk⟩ := frTarget_parts h
  simp only [inHTRState, Bool.and_eq_true]
  exact ⟨edgesAll_transX frEdgeX_htr c he,
    cornersAll_transX htrCornerX_htr c hk⟩

theorem frTargetZ_drrl {c : Cube} (h : inFRUDTarget (transformZ c) = true) :
    inDRRL c = true := by
  obtain ⟨he, hk⟩ := frTarget_parts h
  simp only [inDRRL, Bool.and_eq_true]
  exact ⟨edgesAll_transZ frEdgeZ_drrl c he,
    cornersAll_transZ htrCornerZ_drrl c hk⟩

theorem frTargetZ_htr {c : Cube} (h : inFRUDTarget (transformZ c) = true) :
    inHTRState c = true := by
  obtain ⟨he, hk⟩ := frTarget_parts h
  simp only [inHTRState, Bool.and_eq_true]
  exact ⟨edgesAll_transZ frEdgeZ_htr c he,
    cornersAll_transZ htrCornerZ_htr c hk⟩

theorem sliceTarget_parts {c : Cube} (h : inSliceFinTarget c = true) :
    edgesAll sliceFinEdgeOK c = true ∧
      cornersAll sliceFinCornerOK c = true := by
  simpa only [inSliceFinTarget, Bool.and_eq_true] using h

theorem sliceTarget_drud {c : Cube} (h : inSliceFinTarget c = true) :
    inDRUD c = true := by
  obtain ⟨he, hk⟩ := sliceTarget_parts h
  simp only [inDRUD, Bool.and_eq_true]
  exact ⟨edgesAll_imp sliceEdge_drud c he, cornersAll_imp sliceCorner_drud c hk⟩

theorem sliceTarget_htr {c : Cube} (h : inSliceFinTarget c = true) :
    inHTRState c = true := by
  obtain ⟨he, hk⟩ := sliceTarget_parts h
  simp only [inHTRState, Bool.and_eq_true]
  exact ⟨edgesAll_imp sliceEdge_htr c he, cornersAll_imp sliceCorner_htr c hk⟩

theorem sliceTargetX_drfb {c : Cube}
    (h : inSliceFinTarget (transformX c) = true) : inDRFB c = true := by
  obtain ⟨he, hk⟩ := sliceTarget_parts h
  simp only [inDRFB, Bool.and_eq_true]
  exact ⟨edgesAll_transX sliceEdgeX_drfb c he,
    cornersAll_transX sliceCornerX_drfb c hk⟩

theorem sliceTargetX_htr {c : Cube}
    (h : inSliceFinTarget (transformX c) = true) : inHTRState c = true := by
  obtain ⟨he, hk⟩ := sliceTarget_parts h
  simp only [inHTRState, Bool.and_eq_true]
  exact ⟨edgesAll_transX sliceEdgeX_htr c he,
    cornersAll_transX sliceCornerX_htr c hk⟩

theorem sliceTargetZ_drrl {c : Cube}
    (h : inSliceFinTarget (transformZ c) = true) : inDRRL c = true := by
  obtain ⟨he, hk⟩ := sliceTarget_parts h
  simp only [inDRRL, Bool.and_eq_true]
  exact ⟨edgesAll_transZ sliceEdgeZ_drrl c he,
    cornersAll_transZ sliceCornerZ_drrl c hk⟩

theorem sliceTargetZ_htr {c : Cube}
    (h : inSliceFinTarget (transformZ c) = true) : inHTRState c = true := by
  obtain ⟨he, hk⟩ := sliceTarget_parts h
  simp only [inHTRState, Bool.and_eq_true]
  exact ⟨edgesAll_transZ sliceEdgeZ_htr c he,
    cornersAll_transZ sliceCornerZ_htr c hk⟩

theorem edgeRank_aux (l : List (Fin 12)) (c : Cube) :
    ∀ s, 1 ≤ s → 1 ≤ l.foldl (fun s p => s * 12 + (c.edges p).id.val) s := by
  induction l with
  | nil => intro s hs; exact hs
  | cons x xs ih =>
    intro s hs
    exact ih (s * 12 + (c.edges x).id.val) (by omega)

theorem edgeRank_pos (c : Cube) : 1 ≤ edgeRank c :=
  edgeRank_aux (List.finRange 12) c 1 (le_refl 1)

theorem fr_coord_zero {c : Cube} (h : (FRUDNoSliceCoordVal c == 0) = true) :
    inFRUDTarget c = true := by
  unfold FRUDNoSliceCoordVal at h
  split at h
  · assumption
  · have := edgeRank_pos c
    simp only [beq_iff_eq] at h
    omega

theorem slice_coord_zero {c : Cube}
    (h : (HTRLeaveSliceFinishCoordVal c == 0) = true) :
    inSliceFinTarget c = true := by
  unfold HTRLeaveSliceFinishCoordVal at h
  split at h
  · assumption
  · have := edgeRank_pos c
    simp only [beq_iff_eq] at h
    omega

theorem htr_solved_of {c : Cube}
    (h1 : inDRUD c = true ∨ inDRFB c = true ∨ inDRRL c = true)
    (h2 : inHTRState c = true) : HTRUD.is_solved c = true := by
  have hor : (inDRUD c || inDRFB c || inDRRL c) = true := by
    rcases h1 with h | h | h <;> simp [h]
  simp [HTRUD.is_solved, get_dr_subset, hor, h2]

theorem countBadUD_of_transX {c : Cube}
    (h : countBadFB (transformX c) = 0) : countBadUD c = 0 := by
  rw [countBadUD_eq_zero]
  intro q
  have hq := (countBadFB_eq_zero (transformX c)).mp h (xFwdE q)
  rw [transformX_edge] at hq
  exact hq

theorem countBadFB_of_transZ {c : Cube}
    (h : countBadFB (transformZ c) = 0) : countBadFB c = 0 := by
  rw [countBadFB_eq_zero]
  intro q
  have hq := (countBadFB_eq_zero (transformZ c)).mp h (zFwdE q)
  rw [transformZ_edge] at hq
  exact hq

/-- C5: for every stage handle among EO, DR, HTR, FR, Slice, Finish and the
scrambled identity stage, in every axis variant, `is_solved` implies
`is_eligible`. -/
theorem c5_solved_implies_eligible (s : StageHandle) (c : Cube)
    (h : isSolvedOf s c = true) : isEligibleOf s c = true := by
  cases s
  case eoud => rfl
  case eofb => rfl
  case eorl => rfl
  case drud =>
    simp only [isSolvedOf, DRUD.is_solved, Bool.and_eq_true, beq_iff_eq] at h
    simp only [isEligibleOf, DRUD.is_eligible, EORL.is_solved, EOFB.is_solved,
      Bool.or_eq_true, beq_iff_eq]
    exact Or.inr h.1.1
  case drfb =>
    simp only [isSolvedOf, DRFB.is_solved, DRUD.is_solved, Bool.and_eq_true,
      beq_iff_eq] at h
    simp only [isEligibleOf, DRFB.is_eligible, EORL.is_solved, EOUD.is_solved,
      Bool.or_eq_true, beq_iff_eq]
    exact Or.inr (countBadUD_of_transX h.1.1)
  case drrl =>
    simp only [isSolvedOf, DRRL.is_solved, DRUD.is_solved, Bool.and_eq_true,
      beq_iff_eq] at h
    simp only [isEligibleOf, DRRL.is_eligible, EOUD.is_solved, EOFB.is_solved,
      Bool.or_eq_true, beq_iff_eq]
    exact Or.inr (countBadFB_of_transZ h.1.1)
  case htrud =>
    cases hgs : get_dr_subset c with
    | none => simp [isSolvedOf, HTRUD.is_solved, hgs] at h
    | some s => simp [isEligibleOf, HTRUD.is_eligible, hgs]
  case htrfb =>
    cases hgs : get_dr_subset c with
    | none => simp [isSolvedOf, HTRFB.is_solved, hgs] at h
    | some s => simp [isEligibleOf, HTRFB.is_eligible, hgs]
  case htrrl =>
    cases hgs : get_dr_subset c with
    | none =>
      simp [isSolvedOf, HTRRL.is_solved, HTRUD.is_solved, hgs] at h
    | some s =>
      simp [isEligibleOf, HTRRL.is_eligible, HTRUD.is_eligible, hgs]
  case frud =>
    have ht := fr_coord_zero (c := c) h
    exact htr_solved_of (Or.inl (frTarget_drud ht)) (frTarget_htr ht)
  case frfb =>
    have ht := fr_coord_zero (c := transformX c) h
    exact htr_solved_of (Or.inr (Or.inl (frTargetX_drfb ht)))
      (frTargetX_htr ht)
  case frrl =>
    have ht := fr_coord_zero (c := transformZ c) h
    exact htr_solved_of (Or.inr (Or.inr (frTargetZ_drrl ht)))
      (frTargetZ_htr ht)
  case sliceud =>
    have ht := slice_coord_zero (c := c) h
    exact htr_solved_of (Or.inl (sliceTarget_drud ht)) (sliceTarget_htr ht)
  case slicefb =>
    have ht := slice_coord_zero (c := transformX c) h
    exact htr_solved_of (Or.inr (Or.inl (sliceTargetX_drfb ht)))
      (sliceTargetX_htr ht)
  case slicerl =>
    have ht := slice_coord_zero (c := transformZ c) h
    exact htr_solved_of (Or.inr (Or.inr (sliceTargetZ_drrl ht)))
      (sliceTargetZ_htr ht)
  case finish => rfl
  case scrambled => rfl

/-- Witness for C5 at a concrete input: EO-UD is solved on the solved cube,
and the implication yields its eligibility. -/
theorem c5_witness :
    isSolvedOf StageHandle.eoud solvedCube = true ∧
    isEligibleOf StageHandle.eoud solvedCube = true :=
  ⟨by decide, c5_solved_implies_eligible StageHandle.eoud solvedCube
    (by decide)⟩

/-- C9: for every stage handle, cube, piece position and facelet, a
visibility byte with the BAD_FACE bit set also has the BAD_PIECE bit set. -/
theorem c9_badface_implies_badpiece (s : StageHandle) (c : Cube)
    (p : Fin 12) (q : Fin 8) (f : Nat) :
    (edgeVisOf s c p f &&& Visibility.BadFace.val ≠ 0 →
      edgeVisOf s c p f &&& Visibility.BadPiece.val ≠ 0) ∧
    (cornerVisOf s c q f &&& Visibility.BadFace.val ≠ 0 →
      cornerVisOf s c q f &&& Visibility.BadPiece.val ≠ 0) := by
  cases s <;>
    refine ⟨?_, ?_⟩ <;>
    · simp only [edgeVisOf, cornerVisOf,
        EOUD.edge_visibility, EOUD.corner_visibility,
        EOFB.edge_visibility, EOFB.corner_visibility,
        EORL.edge_visibility, EORL.corner_visibility,
        DRUD.edge_visibility, DRUD.corner_visibility,
        DRFB.edge_visibility, DRFB.corner_visibility,
        DRRL.edge_visibility, DRRL.corner_visibility,
        HTRUD.edge_visibility, HTRUD.corner_visibility,
        HTRFB.edge_visibility, HTRFB.corner_visibility,
        HTRRL.edge_visibility, HTRRL.corner_visibility,
        FRUD.edge_visibility, FRUD.corner_visibility,
        FRFB.edge_visibility, FRFB.corner_visibility,
        FRRL.edge_visibility, FRRL.corner_visibility,
        SliceUD.edge_visibility, SliceUD.corner_visibility,
        SliceFB.edge_visibility, SliceFB.corner_visibility,
        SliceRL.edge_visibility, SliceRL.corner_visibility,
        Finish.edge_visibility, Finish.corner_visibility,
        SCRAMBLED.edge_visibility, SCRAMBLED.corner_visibility]
      first
      | (split_ifs <;> decide)
      | decide

/-- Witness for C9 at a concrete input: on the solved cube the Slice-UD stage
marks edge position 0 with BAD_FACE, hence BAD_PIECE is set as well. -/
theorem c9_witness :
    edgeVisOf StageHandle.sliceud solvedCube 0 0 &&&
      Visibility.BadPiece.val ≠ 0 :=
  (c9_badface_implies_badpiece StageHandle.sliceud solvedCube 0 0 0).1
    (by decide)

end VFMC
